import Mathlib

/-!
Shallow embedding of `src/app.py`: a small web application that reads a
tabular CSV file, looks up a record by integer id, and shapes a fixed
five-block prediction output, served both as JSON (`/on_predict`) and as a
rendered page (`/result`).

Modelling conventions:
- A pandas DataFrame is a `DataFrame`: an ordered list of column names plus a
  list of rows, each row an ordered list of cells aligned with the columns.
- A CSV cell is a `Cell`: an integer-valued numeric, a string, a boolean, or
  NaN/missing (`Cell.nullV`).  The claims under study only involve
  integer-valued numeric columns, so numerics are modelled as `Int`.
- Python exceptions become `Except AppError`; `FileNotFoundError` and
  `ValueError` are the two kinds raised by `app.py`.
- The filesystem state (presence and parsed content of `test.csv`) is an
  `Option DataFrame` parameter: `none` means the backing file is absent.
- Apostrophes inside the literal Python error messages are written with the
  escape `\x27`.
-/

/-- A single CSV/DataFrame cell value. -/
inductive Cell where
  | intV : Int → Cell
  | strV : String → Cell
  | boolV : Bool → Cell
  | nullV : Cell
  deriving DecidableEq, Repr

/-- An in-memory pandas DataFrame: ordered column names and rows of cells,
each row aligned positionally with the columns. -/
structure DataFrame where
  columns : List String
  rows : List (List Cell)
  deriving DecidableEq, Repr

/-- A JSON value, the target of the `to_json`/`json.loads` coercions in
`app.py` and of `jsonify` at the endpoint boundary. -/
inductive Json where
  | num : Int → Json
  | str : String → Json
  | bool : Bool → Json
  | null : Json
  | arr : List Json → Json
  | obj : List (String × Json) → Json

/-- `true` for the scalar JSON values (numbers, strings, booleans, null). -/
def Json.isAtom : Json → Bool
  | .obj _ => false
  | .arr _ => false
  | _ => true

/-- Keys of a JSON object (empty for non-objects). -/
def jsonKeys : Json → List String
  | .obj l => l.map Prod.fst
  | _ => []

/-- The two exception kinds raised by `app.py`: `FileNotFoundError`
(line 18) and `ValueError` (lines 29, 34, and int() conversion failures). -/
inductive AppError where
  | fileNotFound : String → AppError
  | valueError : String → AppError
  deriving DecidableEq, Repr

/-- Python `str(exc)`: the message carried by the exception. -/
def AppError.message : AppError → String
  | .fileNotFound m => m
  | .valueError m => m

/-- ASCII whitespace, as stripped by Python `int(str)`. -/
def isSpaceChar (c : Char) : Bool :=
  c == ' ' || c == '\t' || c == '\n' || c == '\r'

/-- Strip leading and trailing whitespace from a character list. -/
def trimChars (cs : List Char) : List Char :=
  ((cs.dropWhile isSpaceChar).reverse.dropWhile isSpaceChar).reverse

/-- Python `int(s)` on a string: strip surrounding whitespace, accept an
optional sign followed by one or more decimal digits; `none` when the string
does not parse as an integer. -/
def pyInt? (s : String) : Option Int :=
  let cs := trimChars s.toList
  let signed : Bool × List Char :=
    match cs with
    | '-' :: rest => (true, rest)
    | '+' :: rest => (false, rest)
    | _ => (false, cs)
  if signed.2 ≠ [] ∧ signed.2.all Char.isDigit then
    let n : Nat := signed.2.foldl (fun acc d => acc * 10 + (d.toNat - 48)) 0
    some (if signed.1 then -(n : Int) else (n : Int))
  else none

/-- Pandas elementwise `==` between a cell of `df["id"]` and an integer
(line 32): numerics compare by value, booleans compare as 0/1 (Python bool
is an int subtype), strings and NaN never equal an integer. -/
def cellEqInt : Cell → Int → Bool
  | .intV n, m => n == m
  | .boolV b, m => (if b then (1 : Int) else 0) == m
  | .strV _, _ => false
  | .nullV, _ => false

/-- Python `int(x)` on a cell value (lines 41 and 46): ints pass through,
booleans map to 0/1, integer-literal strings parse, NaN raises
`ValueError("cannot convert float NaN to integer")`, other strings raise
`ValueError`. -/
def cellToInt : Cell → Except AppError Int
  | .intV n => .ok n
  | .boolV b => .ok (if b then 1 else 0)
  | .strV s =>
    match pyInt? s with
    | some n => .ok n
    | none => .error (.valueError "invalid literal for int() with base 10")
  | .nullV => .error (.valueError "cannot convert float NaN to integer")

/-- The JSON coercion performed by pandas `to_json` followed by
`json.loads` (lines 38 and 55): numerics, strings and booleans map to the
corresponding JSON scalars, NaN maps to JSON null. -/
def cellToJson : Cell → Json
  | .intV n => .num n
  | .strV s => .str s
  | .boolV b => .bool b
  | .nullV => .null

/-- `row_match.iloc[0].to_dict()` (line 36): a row as a mapping from column
name to cell, in column order. -/
def rowDict (cols : List String) (r : List Cell) : List (String × Cell) :=
  List.zip cols r

/-- The row predicate of `df[df["id"] == record_id]` (line 32): the cell of
the `id` column compares equal to `record_id`. -/
def rowMatches (cols : List String) (record_id : Int) (r : List Cell) : Bool :=
  match List.lookup "id" (rowDict cols r) with
  | some c => cellEqInt c record_id
  | none => false

/-- `json.loads(pd.Series(row_dict).to_json())` (line 38): every cell of the
row mapping coerced to a JSON scalar. -/
def rowClean (d : List (String × Cell)) : List (String × Json) :=
  d.map (fun p => (p.1, cellToJson p.2))

/-- `json.loads(df.head(10).to_json(orient="records"))` (line 55): the first
10 rows of the table as JSON records. -/
def tablePreview (df : DataFrame) : List (List (String × Json)) :=
  (df.rows.take 10).map (fun r => rowClean (rowDict df.columns r))

/-- `int(row_dict.get("is_fit", 0))` (line 41): convert the `is_fit` cell
when the key is present, default to 0 when absent. -/
def fitValueOf (d : List (String × Cell)) : Except AppError Int :=
  match List.lookup "is_fit" d with
  | some c => cellToInt c
  | none => .ok 0

/-- `int(row_dict.get("id", record_id))` (line 46): convert the `id` cell
when the key is present, default to the requested id when absent. -/
def ribbonIdOf (d : List (String × Cell)) (record_id : Int) : Except AppError Int :=
  match List.lookup "id" d with
  | some c => cellToInt c
  | none => .ok record_id

/-- The five-block output shape of lines 44-63. -/
structure BlockRibbon where
  id : Int
  retrieved : List (String × Json)

structure BlockMiddleUpper where
  is_fit : Int
  key_factors : String

structure BlockMiddleLower where
  table_rows : List (List (String × Json))
  columns : List String

structure BlockRight where
  narrative : String

structure Output where
  block_ribbon : BlockRibbon
  block_middle_upper : BlockMiddleUpper
  block_middle_lower : BlockMiddleLower
  block_nearest_neighbors : List (String × String)
  block_right : BlockRight

/-- The configured CSV path (`CSV_PATH`, line 12); `APP_ROOT` is elided. -/
def csvPath : String := "test.csv"

/-- The `FileNotFoundError` message of lines 18-20. -/
def csvNotFoundMsg : String :=
  "CSV not found at " ++ csvPath ++ ". Run generate_csv.py to create a sample file."

/-- The `ValueError` message of line 29. -/
def missingIdColumnMsg : String := "CSV must contain an \x27id\x27 column"

/-- The `ValueError` message of line 34. -/
def noRecordMsg (record_id : Int) : String :=
  "No record found for id " ++ toString record_id

/-- The static explanatory sentence of line 51. -/
def keyFactorsText : String :=
  "I think the prediction was fit because of training frequency, cardio score, and diet consistency."

/-- The narrative sentence of lines 60-61. -/
def narrativeText (record_id : Int) (is_fit_value : Int) : String :=
  "For the id " ++ toString record_id ++ ", it is predicted as the person is " ++
    (if is_fit_value == 1 then "fit" else "not fit")

/-- `load_dataframe` (lines 15-22): raise `FileNotFoundError` when the CSV is
absent, otherwise return the parsed table. -/
def load_dataframe (fileSystem : Option DataFrame) : Except AppError DataFrame :=
  match fileSystem with
  | none => .error (.fileNotFound csvNotFoundMsg)
  | some df => .ok df

/-- The output dict literal of lines 44-63, assembled for the first matching
row `r` with fit value `v` and ribbon id `i`. -/
def mkOutput (df : DataFrame) (record_id : Int) (r : List Cell) (v i : Int) : Output :=
  { block_ribbon := { id := i, retrieved := rowClean (rowDict df.columns r) },
    block_middle_upper := { is_fit := v, key_factors := keyFactorsText },
    block_middle_lower := { table_rows := tablePreview df, columns := df.columns },
    block_nearest_neighbors := [("Nearest neighbors", "Nearest neighbors")],
    block_right := { narrative := narrativeText record_id v } }

/-- `build_prediction_output` (lines 25-65): load the table, require an `id`
column, locate the first row whose id equals `record_id`, convert the fit
flag and ribbon id, and assemble the five blocks. -/
def build_prediction_output (fileSystem : Option DataFrame) (record_id : Int) :
    Except AppError Output :=
  match load_dataframe fileSystem with
  | .error e => .error e
  | .ok df =>
    if "id" ∉ df.columns then
      .error (.valueError missingIdColumnMsg)
    else
      match df.rows.filter (rowMatches df.columns record_id) with
      | [] => .error (.valueError (noRecordMsg record_id))
      | r :: _ =>
        match fitValueOf (rowDict df.columns r) with
        | .error e => .error e
        | .ok is_fit_value =>
          match ribbonIdOf (rowDict df.columns r) record_id with
          | .error e => .error e
          | .ok ribbon_id => .ok (mkOutput df record_id r is_fit_value ribbon_id)

/-- A response of the JSON endpoint: HTTP 200 with `{"output": ...}` on
success, HTTP 400 with `{"error": msg}` on failure. -/
inductive PredictResponse where
  | success : Output → PredictResponse
  | failure : String → PredictResponse

/-- The HTTP status code attached to each `/on_predict` response
(lines 84, 88, 93, 96). -/
def PredictResponse.statusCode : PredictResponse → Nat
  | .success _ => 200
  | .failure _ => 400

/-- The error message of line 84. -/
def missingIdParamMsg : String := "Missing required query parameter \x27id\x27"

/-- The error message of line 88. -/
def nonIntegerIdMsg : String := "\x27id\x27 must be an integer"

/-- The `/on_predict` route (lines 79-96): require an `id` query parameter,
parse it as an integer, run the builder, and wrap the outcome as JSON. -/
def on_predict (fileSystem : Option DataFrame) (id_param : Option String) :
    PredictResponse :=
  match id_param with
  | none => .failure missingIdParamMsg
  | some s =>
    match pyInt? s with
    | none => .failure nonIntegerIdMsg
    | some record_id =>
      match build_prediction_output fileSystem record_id with
      | .error e => .failure e.message
      | .ok output => .success output

/-- A response of the page endpoint: a rendered result page, or a redirect
to the index listing page. -/
inductive PageResponse where
  | renderResult : Output → PageResponse
  | redirectIndex : PageResponse

/-- The `/result` route (lines 98-115): missing, non-integer or failing ids
all redirect to the index page; otherwise the output is rendered. -/
def result_page (fileSystem : Option DataFrame) (id_param : Option String) :
    PageResponse :=
  match id_param with
  | none => .redirectIndex
  | some s =>
    match pyInt? s with
    | none => .redirectIndex
    | some record_id =>
      match build_prediction_output fileSystem record_id with
      | .error _ => .redirectIndex
      | .ok output => .renderResult output

/-- The JSON value that `jsonify` serializes for the output dict: the five
blocks in the order of lines 44-63. -/
def outputToJson (o : Output) : Json :=
  .obj
    [("block_ribbon", .obj
        [("id", .num o.block_ribbon.id),
         ("retrieved", .obj o.block_ribbon.retrieved)]),
     ("block_middle_upper", .obj
        [("is_fit", .num o.block_middle_upper.is_fit),
         ("key_factors", .str o.block_middle_upper.key_factors)]),
     ("block_middle_lower", .obj
        [("table_rows", .arr (o.block_middle_lower.table_rows.map (fun row => .obj row))),
         ("columns", .arr (o.block_middle_lower.columns.map Json.str))]),
     ("block_nearest_neighbors", .obj
        (o.block_nearest_neighbors.map (fun p => (p.1, Json.str p.2)))),
     ("block_right", .obj
        [("narrative", .str o.block_right.narrative)])]

/-- `true` when the cell is an integer numeric. -/
def cellIsInt : Cell → Bool
  | .intV _ => true
  | _ => false

/-- `true` when the cell is the integer 0 or 1. -/
def cellIsBit : Cell → Bool
  | .intV n => n == 0 || n == 1
  | _ => false

/-- The spec data-model invariant on the `id` column (spec section 3: the id
column is integer-typed): every cell found under the `id` key of a row
mapping is an integer numeric. -/
def idColumnIntB (df : DataFrame) : Bool :=
  df.rows.all (fun r =>
    match List.lookup "id" (rowDict df.columns r) with
    | some c => cellIsInt c
    | none => true)

/-- The spec data-model invariant on the `is_fit` column (spec section 3:
integer, 0 or 1): every cell found under the `is_fit` key of a row mapping
is the integer 0 or 1. -/
def fitColumnValidB (df : DataFrame) : Bool :=
  df.rows.all (fun r =>
    match List.lookup "is_fit" (rowDict df.columns r) with
    | some c => cellIsBit c
    | none => true)

/-! ### Sample tables (used by the witnesses) -/

/-- The concrete scenario of spec section 8: ids 1,2,3 and row id=2 has
`is_fit = 1`. -/
def sampleDf : DataFrame :=
  { columns := ["id", "is_fit", "name"],
    rows := [[Cell.intV 1, Cell.intV 0, Cell.strV "a"],
             [Cell.intV 2, Cell.intV 1, Cell.strV "b"],
             [Cell.intV 3, Cell.intV 0, Cell.strV "c"]] }

/-- The output `build_prediction_output` assembles for id 2 on `sampleDf`. -/
def sampleOut2 : Output :=
  mkOutput sampleDf 2 [Cell.intV 2, Cell.intV 1, Cell.strV "b"] 1 2

/-- A table with a duplicated id 5. -/
def dupDf : DataFrame :=
  { columns := ["id", "is_fit"],
    rows := [[Cell.intV 5, Cell.intV 1], [Cell.intV 5, Cell.intV 0]] }

/-- The output `build_prediction_output` assembles for id 5 on `dupDf`:
built from the first of the two matching rows. -/
def dupOut5 : Output :=
  mkOutput dupDf 5 [Cell.intV 5, Cell.intV 1] 1 5

/-- A table whose matched row has an empty (NaN) `is_fit` cell. -/
def nanDf : DataFrame :=
  { columns := ["id", "is_fit"],
    rows := [[Cell.intV 7, Cell.nullV]] }

/-- A table without an `id` column. -/
def noIdDf : DataFrame :=
  { columns := ["name"], rows := [[Cell.strV "x"]] }

/-! ### Helper lemmas -/

theorem lookup_mem {k : String} {c : Cell} {l : List (String × Cell)}
    (h : List.lookup k l = some c) : (k, c) ∈ l := by
  obtain ⟨l₁, l₂, rfl, -⟩ := List.lookup_eq_some_iff.mp h
  exact List.mem_append_right _ (List.mem_cons_self _ _)

theorem mem_cols_of_lookup {k : String} {c : Cell} {cols : List String} {r : List Cell}
    (h : List.lookup k (rowDict cols r) = some c) : k ∈ cols :=
  (List.of_mem_zip (lookup_mem h)).1

theorem rowMatches_lookup {cols : List String} {record_id : Int} {r : List Cell}
    (h : rowMatches cols record_id r = true) :
    ∃ c, List.lookup "id" (rowDict cols r) = some c ∧ cellEqInt c record_id = true := by
  unfold rowMatches at h
  cases hl : List.lookup "id" (rowDict cols r) with
  | none => rw [hl] at h; cases h
  | some c => rw [hl] at h; exact ⟨c, rfl, h⟩

theorem cellToJson_isAtom (c : Cell) : (cellToJson c).isAtom = true := by
  cases c <;> rfl

theorem build_ok {df : DataFrame} {record_id : Int} {r : List Cell}
    {rest : List (List Cell)} {v i : Int}
    (hcol : "id" ∈ df.columns)
    (hfil : df.rows.filter (rowMatches df.columns record_id) = r :: rest)
    (hfit : fitValueOf (rowDict df.columns r) = .ok v)
    (hrid : ribbonIdOf (rowDict df.columns r) record_id = .ok i) :
    build_prediction_output (some df) record_id =
      .ok (mkOutput df record_id r v i) := by
  simp only [build_prediction_output, load_dataframe, hfil, hfit, hrid]
  rw [if_neg (by simpa using hcol)]

theorem build_ok_inversion {df : DataFrame} {record_id : Int} {out : Output}
    (h : build_prediction_output (some df) record_id = .ok out) :
    ∃ r rest v i,
      "id" ∈ df.columns ∧
      df.rows.filter (rowMatches df.columns record_id) = r :: rest ∧
      fitValueOf (rowDict df.columns r) = .ok v ∧
      ribbonIdOf (rowDict df.columns r) record_id = .ok i ∧
      out = mkOutput df record_id r v i := by
  simp only [build_prediction_output, load_dataframe] at h
  by_cases hcol : "id" ∈ df.columns
  · rw [if_neg (by simpa using hcol)] at h
    cases hfil : df.rows.filter (rowMatches df.columns record_id) with
    | nil => simp only [hfil] at h; exact Except.noConfusion h
    | cons r rest =>
      simp only [hfil] at h
      cases hfit : fitValueOf (rowDict df.columns r) with
      | error e => simp only [hfit] at h; exact Except.noConfusion h
      | ok v =>
        simp only [hfit] at h
        cases hrid : ribbonIdOf (rowDict df.columns r) record_id with
        | error e => simp only [hrid] at h; exact Except.noConfusion h
        | ok i =>
          simp only [hrid] at h
          injection h with h2
          exact ⟨r, rest, v, i, hcol, rfl, hfit, hrid, h2.symm⟩
  · rw [if_pos (by simpa using hcol)] at h
    exact Except.noConfusion h

/-! ### Claims -/

/-- C1: for every id that is present in the source table's id column (some
row matches it), `build_prediction_output` succeeds and the `block_ribbon`
section of its result has an `id` field equal to the requested id.  The two
Boolean hypotheses are the spec's data-model invariants on the `id` and
`is_fit` columns (section 3). -/
theorem c1_present_id_ribbon (df : DataFrame) (record_id : Int)
    (hid : idColumnIntB df = true)
    (hfit : fitColumnValidB df = true)
    (hmatch : df.rows.filter (rowMatches df.columns record_id) ≠ []) :
    ∃ out, build_prediction_output (some df) record_id = Except.ok out ∧
      out.block_ribbon.id = record_id := by
  cases hfil : df.rows.filter (rowMatches df.columns record_id) with
  | nil => exact absurd hfil hmatch
  | cons r rest =>
    have hrmem : r ∈ df.rows ∧ rowMatches df.columns record_id r = true := by
      have hr : r ∈ df.rows.filter (rowMatches df.columns record_id) := by
        rw [hfil]; exact List.mem_cons_self r rest
      exact List.mem_filter.mp hr
    obtain ⟨c, hlk, hceq⟩ := rowMatches_lookup hrmem.2
    have hcint : cellIsInt c = true := by
      have hall := (List.all_eq_true.mp hid) r hrmem.1
      simpa [hlk] using hall
    obtain ⟨n, rfl⟩ : ∃ n, c = Cell.intV n := by
      cases c with
      | intV n => exact ⟨n, rfl⟩
      | strV s => cases hcint
      | boolV b => cases hcint
      | nullV => cases hcint
    have hn : n = record_id := by simpa [cellEqInt] using hceq
    subst hn
    have hcol : "id" ∈ df.columns := mem_cols_of_lookup hlk
    have hrid : ribbonIdOf (rowDict df.columns r) n = .ok n := by
      simp [ribbonIdOf, hlk, cellToInt]
    have hfitok : ∃ v, fitValueOf (rowDict df.columns r) = .ok v := by
      unfold fitValueOf
      cases hlk2 : List.lookup "is_fit" (rowDict df.columns r) with
      | none => exact ⟨0, rfl⟩
      | some c2 =>
        have hbit : cellIsBit c2 = true := by
          have hall := (List.all_eq_true.mp hfit) r hrmem.1
          simpa [hlk2] using hall
        cases c2 with
        | intV m => exact ⟨m, rfl⟩
        | strV s => cases hbit
        | boolV b => cases hbit
        | nullV => cases hbit
    obtain ⟨v, hfv⟩ := hfitok
    exact ⟨mkOutput df n r v n, build_ok hcol hfil hfv hrid, rfl⟩

/-- Witness for C1: on the sample table, requesting id 2 succeeds and the
ribbon id is 2. -/
theorem c1_present_id_ribbon_witness :
    ∃ out, build_prediction_output (some sampleDf) 2 = Except.ok out ∧
      out.block_ribbon.id = 2 :=
  c1_present_id_ribbon sampleDf 2 (by decide) (by decide) (by decide)

/-- C2: for every record id that matches a row, the `is_fit` value in
`block_middle_upper` of the builder's result is exactly 0 or exactly 1, and
it is 0 whenever the source table has no `is_fit` column.  The Boolean
hypothesis is the spec's data-model invariant on the `is_fit` column
(section 3: integer, 0 or 1). -/
theorem c2_fit_flag_bit (df : DataFrame) (record_id : Int) (out : Output)
    (hfit : fitColumnValidB df = true)
    (h : build_prediction_output (some df) record_id = Except.ok out) :
    (out.block_middle_upper.is_fit = 0 ∨ out.block_middle_upper.is_fit = 1) ∧
      ("is_fit" ∉ df.columns → out.block_middle_upper.is_fit = 0) := by
  obtain ⟨r, rest, v, i, hcol, hfil, hfv, hrid, rfl⟩ := build_ok_inversion h
  have hrmem : r ∈ df.rows := by
    have hr : r ∈ df.rows.filter (rowMatches df.columns record_id) := by
      rw [hfil]; exact List.mem_cons_self r rest
    exact (List.mem_filter.mp hr).1
  refine ⟨?_, ?_⟩
  · show v = 0 ∨ v = 1
    cases hlk : List.lookup "is_fit" (rowDict df.columns r) with
    | none =>
      simp only [fitValueOf, hlk] at hfv
      injection hfv with h0
      exact Or.inl h0.symm
    | some c =>
      have hbit : cellIsBit c = true := by
        have hall := (List.all_eq_true.mp hfit) r hrmem
        simpa [hlk] using hall
      cases c with
      | intV m =>
        simp only [fitValueOf, hlk, cellToInt] at hfv
        injection hfv with h0
        have hm : m = 0 ∨ m = 1 := by simpa [cellIsBit] using hbit
        exact h0 ▸ hm
      | strV s => simp [cellIsBit] at hbit
      | boolV b => simp [cellIsBit] at hbit
      | nullV => simp [cellIsBit] at hbit
  · intro hnot
    show v = 0
    cases hlk : List.lookup "is_fit" (rowDict df.columns r) with
    | none =>
      simp only [fitValueOf, hlk] at hfv
      injection hfv with h0
      exact h0.symm
    | some c => exact absurd (mem_cols_of_lookup hlk) hnot

/-- Witness for C2: requesting id 2 on the sample table succeeds with fit
flag 1. -/
theorem c2_fit_flag_bit_witness :
    (build_prediction_output (some sampleDf) 2 = Except.ok sampleOut2) ∧
      ((sampleOut2.block_middle_upper.is_fit = 0 ∨
          sampleOut2.block_middle_upper.is_fit = 1) ∧
        ("is_fit" ∉ sampleDf.columns → sampleOut2.block_middle_upper.is_fit = 0)) :=
  ⟨rfl, c2_fit_flag_bit sampleDf 2 sampleOut2 (by decide) rfl⟩

/-- C3: for every integer id that matches no row of the table,
`build_prediction_output` raises a "record not found" `ValueError` whose
message names that id; the JSON endpoint then returns a 400 response
carrying that message, and the page endpoint redirects to the listing
page. -/
theorem c3_record_not_found (df : DataFrame) (record_id : Int)
    (hcol : "id" ∈ df.columns)
    (hnone : df.rows.filter (rowMatches df.columns record_id) = []) :
    build_prediction_output (some df) record_id =
      Except.error (AppError.valueError (noRecordMsg record_id)) ∧
    (∃ pre post, noRecordMsg record_id = pre ++ toString record_id ++ post) ∧
    (∀ s, pyInt? s = some record_id →
      on_predict (some df) (some s) =
        PredictResponse.failure (noRecordMsg record_id) ∧
      (on_predict (some df) (some s)).statusCode = 400 ∧
      result_page (some df) (some s) = PageResponse.redirectIndex) := by
  have hbuild : build_prediction_output (some df) record_id =
      Except.error (AppError.valueError (noRecordMsg record_id)) := by
    simp only [build_prediction_output, load_dataframe, hnone]
    rw [if_neg (by simpa using hcol)]
  refine ⟨hbuild, ⟨"No record found for id ", "", ?_⟩, ?_⟩
  · rw [String.append_empty]; rfl
  · intro s hs
    refine ⟨?_, ?_, ?_⟩ <;>
      simp [on_predict, result_page, hs, hbuild, AppError.message,
        PredictResponse.statusCode]

/-- Witness for C3: id 99 is absent from the sample table, so the builder
errors, the JSON endpoint answers 400 and the page endpoint redirects. -/
theorem c3_record_not_found_witness :
    build_prediction_output (some sampleDf) 99 =
      Except.error (AppError.valueError (noRecordMsg 99)) ∧
    (∃ pre post, noRecordMsg 99 = pre ++ toString (99 : Int) ++ post) ∧
    (∀ s, pyInt? s = some 99 →
      on_predict (some sampleDf) (some s) =
        PredictResponse.failure (noRecordMsg 99) ∧
      (on_predict (some sampleDf) (some s)).statusCode = 400 ∧
      result_page (some sampleDf) (some s) = PageResponse.redirectIndex) :=
  c3_record_not_found sampleDf 99 (by decide) (by decide)

/-- C4: for every matched record, the narrative string in `block_right`
contains the literal requested id, ends with "fit" when the fit flag is 1,
and ends with "not fit" when the fit flag is 0. -/
theorem c4_narrative_contents (df : DataFrame) (record_id : Int) (out : Output)
    (h : build_prediction_output (some df) record_id = Except.ok out) :
    (∃ pre post, out.block_right.narrative = pre ++ toString record_id ++ post) ∧
    (out.block_middle_upper.is_fit = 1 →
      ∃ pre, out.block_right.narrative = pre ++ "fit") ∧
    (out.block_middle_upper.is_fit = 0 →
      ∃ pre, out.block_right.narrative = pre ++ "not fit") := by
  obtain ⟨r, rest, v, i, hcol, hfil, hfv, hrid, rfl⟩ := build_ok_inversion h
  refine ⟨⟨"For the id ",
      ", it is predicted as the person is " ++ (if v == 1 then "fit" else "not fit"),
      ?_⟩, ?_, ?_⟩
  · show narrativeText record_id v = _
    unfold narrativeText
    rw [String.append_assoc, String.append_assoc]
  · intro hv
    have hv1 : v = 1 := hv
    subst hv1
    exact ⟨"For the id " ++ toString record_id ++
      ", it is predicted as the person is ", rfl⟩
  · intro hv
    have hv0 : v = 0 := hv
    subst hv0
    exact ⟨"For the id " ++ toString record_id ++
      ", it is predicted as the person is ", rfl⟩

/-- Witness for C4: on the sample table, id 2 has fit flag 1 and the
narrative decomposes around the id and ends with "fit". -/
theorem c4_narrative_contents_witness :
    (build_prediction_output (some sampleDf) 2 = Except.ok sampleOut2) ∧
    ((∃ pre post,
        sampleOut2.block_right.narrative = pre ++ toString (2 : Int) ++ post) ∧
      (sampleOut2.block_middle_upper.is_fit = 1 →
        ∃ pre, sampleOut2.block_right.narrative = pre ++ "fit") ∧
      (sampleOut2.block_middle_upper.is_fit = 0 →
        ∃ pre, sampleOut2.block_right.narrative = pre ++ "not fit")) :=
  ⟨rfl, c4_narrative_contents sampleDf 2 sampleOut2 rfl⟩

/-- C5: for every requested id that resolves to a record, the `table_rows`
list in `block_middle_lower` is the JSON coercion of the first 10 rows of
the source table in original order, hence has at most 10 rows, the same
rows for every requested id, and the `columns` list equals the full ordered
list of the source table's column names. -/
theorem c5_table_preview (df : DataFrame) (record_id : Int) (out : Output)
    (h : build_prediction_output (some df) record_id = Except.ok out) :
    out.block_middle_lower.table_rows = tablePreview df ∧
    out.block_middle_lower.table_rows.length ≤ 10 ∧
    out.block_middle_lower.columns = df.columns ∧
    (∀ record_id2 out2,
      build_prediction_output (some df) record_id2 = Except.ok out2 →
      out2.block_middle_lower = out.block_middle_lower) := by
  obtain ⟨r, rest, v, i, -, -, -, -, rfl⟩ := build_ok_inversion h
  refine ⟨rfl, ?_, rfl, ?_⟩
  · show (tablePreview df).length ≤ 10
    simp only [tablePreview, List.length_map, List.length_take]
    exact min_le_left 10 df.rows.length
  · intro record_id2 out2 h2
    obtain ⟨r2, rest2, v2, i2, -, -, -, -, rfl⟩ := build_ok_inversion h2
    rfl

/-- Witness for C5: the preview on the sample table for id 2. -/
theorem c5_table_preview_witness :
    (build_prediction_output (some sampleDf) 2 = Except.ok sampleOut2) ∧
    (sampleOut2.block_middle_lower.table_rows = tablePreview sampleDf ∧
      sampleOut2.block_middle_lower.table_rows.length ≤ 10 ∧
      sampleOut2.block_middle_lower.columns = sampleDf.columns ∧
      (∀ record_id2 out2,
        build_prediction_output (some sampleDf) record_id2 = Except.ok out2 →
        out2.block_middle_lower = sampleOut2.block_middle_lower)) :=
  ⟨rfl, c5_table_preview sampleDf 2 sampleOut2 rfl⟩

/-- C6: for every identifier parameter value that does not parse as an
integer, and also when the parameter is missing, the JSON endpoint returns
a 400 response with an error message and the page endpoint redirects to the
listing page.  Both responses are universally quantified over the
filesystem state, so they are independent of the table:
`build_prediction_output` is never consulted in these cases. -/
theorem c6_invalid_id_param (s : String) (hbad : pyInt? s = none) :
    (∀ fileSystem, on_predict fileSystem (some s) =
        PredictResponse.failure nonIntegerIdMsg ∧
      (on_predict fileSystem (some s)).statusCode = 400 ∧
      result_page fileSystem (some s) = PageResponse.redirectIndex) ∧
    (∀ fileSystem, on_predict fileSystem none =
        PredictResponse.failure missingIdParamMsg ∧
      (on_predict fileSystem none).statusCode = 400 ∧
      result_page fileSystem none = PageResponse.redirectIndex) := by
  refine ⟨fun fileSystem => ?_, fun fileSystem => ?_⟩ <;>
    refine ⟨?_, ?_, ?_⟩ <;>
      simp [on_predict, result_page, hbad, PredictResponse.statusCode]

/-- Witness for C6: the string "abc" does not parse as an integer. -/
theorem c6_invalid_id_param_witness :
    (∀ fileSystem, on_predict fileSystem (some "abc") =
        PredictResponse.failure nonIntegerIdMsg ∧
      (on_predict fileSystem (some "abc")).statusCode = 400 ∧
      result_page fileSystem (some "abc") = PageResponse.redirectIndex) ∧
    (∀ fileSystem, on_predict fileSystem none =
        PredictResponse.failure missingIdParamMsg ∧
      (on_predict fileSystem none).statusCode = 400 ∧
      result_page fileSystem none = PageResponse.redirectIndex) :=
  c6_invalid_id_param "abc" (by decide)

/-- C7: for every table whose columns do not include "id",
`build_prediction_output` raises the missing-id-column `ValueError` for any
requested id, independently of the rows (so before any row lookup), and it
propagates the Data Loader's `FileNotFoundError` when the backing file is
absent. -/
theorem c7_schema_and_missing_file (df : DataFrame) (record_id : Int)
    (hcol : "id" ∉ df.columns) :
    build_prediction_output (some df) record_id =
      Except.error (AppError.valueError missingIdColumnMsg) ∧
    (∀ rows2, build_prediction_output
        (some { columns := df.columns, rows := rows2 }) record_id =
      Except.error (AppError.valueError missingIdColumnMsg)) ∧
    build_prediction_output none record_id =
      Except.error (AppError.fileNotFound csvNotFoundMsg) := by
  refine ⟨?_, fun rows2 => ?_, rfl⟩
  · simp only [build_prediction_output, load_dataframe]
    rw [if_pos hcol]
  · simp only [build_prediction_output, load_dataframe]
    rw [if_pos hcol]

/-- Witness for C7: a one-column table without "id". -/
theorem c7_schema_and_missing_file_witness :
    build_prediction_output (some noIdDf) 1 =
      Except.error (AppError.valueError missingIdColumnMsg) ∧
    (∀ rows2, build_prediction_output
        (some { columns := noIdDf.columns, rows := rows2 }) 1 =
      Except.error (AppError.valueError missingIdColumnMsg)) ∧
    build_prediction_output none 1 =
      Except.error (AppError.fileNotFound csvNotFoundMsg) :=
  c7_schema_and_missing_file noIdDf 1 (by decide)

/-- C8: when more than one row has an id equal to the requested id,
`build_prediction_output` builds the ribbon block from the first matching
row in table order: its `retrieved` copy is that row's cleaned mapping and
its `id` is converted from that row's id cell. -/
theorem c8_duplicate_first_row (df : DataFrame) (record_id : Int)
    (r r2 : List Cell) (rest : List (List Cell)) (out : Output)
    (hfil : df.rows.filter (rowMatches df.columns record_id) = r :: r2 :: rest)
    (h : build_prediction_output (some df) record_id = Except.ok out) :
    out.block_ribbon.retrieved = rowClean (rowDict df.columns r) ∧
    ribbonIdOf (rowDict df.columns r) record_id =
      Except.ok out.block_ribbon.id := by
  obtain ⟨r', rest', v, i, hcol, hfil', hfv, hrid, rfl⟩ := build_ok_inversion h
  rw [hfil] at hfil'
  injection hfil' with h1 h2
  subst h1
  exact ⟨rfl, hrid⟩

/-- Witness for C8: on the table with a duplicated id 5, the ribbon is
built from the first matching row. -/
theorem c8_duplicate_first_row_witness :
    (build_prediction_output (some dupDf) 5 = Except.ok dupOut5) ∧
    (dupOut5.block_ribbon.retrieved =
        rowClean (rowDict dupDf.columns [Cell.intV 5, Cell.intV 1]) ∧
      ribbonIdOf (rowDict dupDf.columns [Cell.intV 5, Cell.intV 1]) 5 =
        Except.ok dupOut5.block_ribbon.id) :=
  ⟨rfl, c8_duplicate_first_row dupDf 5 [Cell.intV 5, Cell.intV 1]
    [Cell.intV 5, Cell.intV 0] [] dupOut5 rfl rfl⟩

/-- C9: for every successful lookup, the JSON value serialized for the
response is an object with exactly the five named blocks, and the ribbon's
`retrieved` mapping has exactly the matched row's column names as keys,
every value a JSON scalar (number, string, boolean or null).  The Boolean
hypothesis states that the table is rectangular (every row has one cell per
column), which pandas guarantees for a parsed CSV. -/
theorem c9_json_shape (df : DataFrame) (record_id : Int) (out : Output)
    (hwf : df.rows.all (fun r => r.length == df.columns.length) = true)
    (h : build_prediction_output (some df) record_id = Except.ok out) :
    jsonKeys (outputToJson out) =
      ["block_ribbon", "block_middle_upper", "block_middle_lower",
        "block_nearest_neighbors", "block_right"] ∧
    out.block_ribbon.retrieved.map Prod.fst = df.columns ∧
    (∀ p ∈ out.block_ribbon.retrieved, (Prod.snd p).isAtom = true) := by
  obtain ⟨r, rest, v, i, hcol, hfil, hfv, hrid, rfl⟩ := build_ok_inversion h
  have hrmem : r ∈ df.rows := by
    have hr : r ∈ df.rows.filter (rowMatches df.columns record_id) := by
      rw [hfil]; exact List.mem_cons_self r rest
    exact (List.mem_filter.mp hr).1
  have hlen : r.length = df.columns.length := by
    have hall := (List.all_eq_true.mp hwf) r hrmem
    simpa using hall
  refine ⟨rfl, ?_, ?_⟩
  · show (rowClean (rowDict df.columns r)).map Prod.fst = df.columns
    unfold rowClean rowDict
    rw [List.map_map]
    have hcomp : (Prod.fst ∘ fun p : String × Cell => (p.1, cellToJson p.2)) =
        Prod.fst := rfl
    rw [hcomp]
    exact List.map_fst_zip _ _ (le_of_eq hlen.symm)
  · intro p hp
    have hp2 : p ∈ rowClean (rowDict df.columns r) := hp
    obtain ⟨q, hq, rfl⟩ := List.mem_map.mp hp2
    exact cellToJson_isAtom q.2

/-- Witness for C9: the JSON shape of the response for id 2 on the sample
table. -/
theorem c9_json_shape_witness :
    (build_prediction_output (some sampleDf) 2 = Except.ok sampleOut2) ∧
    (jsonKeys (outputToJson sampleOut2) =
        ["block_ribbon", "block_middle_upper", "block_middle_lower",
          "block_nearest_neighbors", "block_right"] ∧
      sampleOut2.block_ribbon.retrieved.map Prod.fst = sampleDf.columns ∧
      (∀ p ∈ sampleOut2.block_ribbon.retrieved, (Prod.snd p).isAtom = true)) :=
  ⟨rfl, c9_json_shape sampleDf 2 sampleOut2 (by decide) rfl⟩

/-- C10 (implicit): when the table has an `is_fit` column but the matched
row's `is_fit` cell is empty (NaN), `build_prediction_output` raises the
int-conversion `ValueError` instead of defaulting the fit flag to 0; the
JSON endpoint then answers 400 and the page endpoint redirects. -/
theorem c10_nan_fit_error (df : DataFrame) (record_id : Int)
    (r : List Cell) (rest : List (List Cell))
    (hcol : "id" ∈ df.columns)
    (hfil : df.rows.filter (rowMatches df.columns record_id) = r :: rest)
    (hnan : List.lookup "is_fit" (rowDict df.columns r) = some Cell.nullV) :
    build_prediction_output (some df) record_id =
      Except.error (AppError.valueError "cannot convert float NaN to integer") ∧
    (∀ s, pyInt? s = some record_id →
      on_predict (some df) (some s) =
        PredictResponse.failure "cannot convert float NaN to integer" ∧
      (on_predict (some df) (some s)).statusCode = 400 ∧
      result_page (some df) (some s) = PageResponse.redirectIndex) := by
  have hbuild : build_prediction_output (some df) record_id =
      Except.error (AppError.valueError "cannot convert float NaN to integer") := by
    simp only [build_prediction_output, load_dataframe, hfil, fitValueOf, hnan,
      cellToInt]
    rw [if_neg (by simpa using hcol)]
  refine ⟨hbuild, ?_⟩
  intro s hs
  refine ⟨?_, ?_, ?_⟩ <;>
    simp [on_predict, result_page, hs, hbuild, AppError.message,
      PredictResponse.statusCode]

/-- Witness for C10: the table whose only row has id 7 and a NaN `is_fit`
cell. -/
theorem c10_nan_fit_error_witness :
    build_prediction_output (some nanDf) 7 =
      Except.error (AppError.valueError "cannot convert float NaN to integer") ∧
    (∀ s, pyInt? s = some 7 →
      on_predict (some nanDf) (some s) =
        PredictResponse.failure "cannot convert float NaN to integer" ∧
      (on_predict (some nanDf) (some s)).statusCode = 400 ∧
      result_page (some nanDf) (some s) = PageResponse.redirectIndex) :=
  c10_nan_fit_error nanDf 7 [Cell.intV 7, Cell.nullV] [] (by decide) rfl rfl
